import Mathlib

/-!
Shallow embedding of the event-normalization and timeline-reconciliation core
of `src/frontend/src/App.tsx` (Rio-SPA-Lite).

The embedding follows the source line by line:
- `Activity` is the `ProcessedEvent` record `{ title, data }`.
- `RawEvent` models the untyped stream event: the fields the handler inspects
  are optional fields; a JS-falsy/absent field is `none` (for `is_sufficient`,
  which is only used for its truthiness, a `Bool`).
- `onUpdateEvent` is the event handler: a pair of the produced activity
  (`processedEvent`) and whether this call set `hasFinalizeEventOccurredRef`.
- `AppState` gathers the React state the claims speak about; the archive
  `useEffect` body is `archiveReconcile`, the submit callback `handleSubmit`.
- The `Record<string, ProcessedEvent[]>` history store is an association list
  with JS-object lookup semantics (`recordSet` / `recordGet`).
-/

namespace RioSpa

/-- The `ProcessedEvent` record from `@/components/ActivityTimeline`: one timeline entry. -/
structure Activity where
  title : String
  data : String
deriving Repr, DecidableEq

/-- One record of `sources_gathered`; only its `label` field is read.
A JS-falsy label (`null`/`undefined`) is `none`; `""` is falsy too and is
handled where `filter(Boolean)` is modelled. -/
structure Source where
  label : Option String := none
deriving Repr, DecidableEq

/-- The node-specific output fields the handler reads, in both shapes. -/
structure NodeData where
  query_list : Option (List String) := none
  sources_gathered : Option (List Source) := none
  is_sufficient : Bool := false
  follow_up_queries : Option (List String) := none
deriving Repr, DecidableEq

/-- The `data` field of a traced-form event; only `data.output` is read. -/
structure EventData where
  output : Option NodeData := none
deriving Repr, DecidableEq

/-- The raw stream event, restricted to the fields `onUpdateEvent` inspects:
`event.event`, `event.type`, `event.name`, `event.data` (traced form) and the
four per-stage keys (flattened form). An absent or JS-falsy field is `none`. -/
structure RawEvent where
  event : Option String := none
  type : Option String := none
  name : Option String := none
  data : Option EventData := none
  generate_query : Option NodeData := none
  web_research : Option NodeData := none
  reflection : Option NodeData := none
  finalize_answer : Option NodeData := none
deriving Repr, DecidableEq

/-- JS `Array.prototype.join(", ")`. -/
def jsJoin (l : List String) : String := String.intercalate ", " l

/-- JS `String.prototype.trim()`: strip leading and trailing whitespace,
modelled structurally on the character list. -/
def jsTrim (s : String) : String :=
  ⟨((s.data.dropWhile Char.isWhitespace).reverse.dropWhile
      Char.isWhitespace).reverse⟩

/-- Whether `s` ends with `post`, at the character level. -/
def strEndsWith (s post : String) : Bool :=
  post.data.isSuffixOf s.data

/-- JS `const eventType = event.event || event.type;` — `||` takes the second
operand when the first is JS-falsy (absent or the empty string). -/
def eventTypeOf (e : RawEvent) : Option String :=
  match e.event with
  | some s => if s = "" then e.type else some s
  | none => e.type

/-- JS `sources.map((s) => s.label).filter(Boolean)`: the labels that are
JS-truthy (present and non-empty). -/
def truthyLabels (sources : List Source) : List String :=
  sources.filterMap fun s =>
    match s.label with
    | some l => if l = "" then none else some l
    | none => none

/-- JS `[...new Set(xs)]`: deduplicate keeping the first occurrence of each
element, in order. -/
def dedupFirst (l : List String) : List String :=
  l.foldl (fun acc x => if x ∈ acc then acc else acc ++ [x]) []

/-- JS `uniqueLabels.slice(0, 3).join(", ")` over the truthy labels. -/
def exampleLabels (sources : List Source) : String :=
  jsJoin ((dedupFirst (truthyLabels sources)).take 3)

/-- The web-research summary string built in both branches:
`` `Gathered ${numSources} sources. Related to: ${exampleLabels || "N/A"}.` ``. -/
def webResearchData (sources : List Source) : String :=
  let numSources := sources.length
  let ex := exampleLabels sources
  let related := if ex = "" then "N/A" else ex
  "Gathered " ++ toString numSources ++ " sources. Related to: " ++ related ++ "."

/-- The reflection summary string built in both branches. Note the template
`` `Need more information, searching for ${...}` `` has no trailing period.
`follow_up_queries?.join(", ") || "additional info"` falls back when the list
is absent or joins to the empty string. -/
def reflectionData (nd : NodeData) : String :=
  if nd.is_sufficient then
    "Search successful, generating final answer."
  else
    let joined :=
      match nd.follow_up_queries with
      | some qs => jsJoin qs
      | none => ""
    let tail := if joined = "" then "additional info" else joined
    "Need more information, searching for " ++ tail

/-- The value of `eventData.output` after the `eventData` truthiness check. -/
def outputOf (e : RawEvent) : Option NodeData :=
  e.data.bind EventData.output

/-- The traced-form branch of `onUpdateEvent` (App.tsx lines 50–108): the
`if (eventType === "on_chain_end" || eventType === "on_chain_start")` block.
Returns the `processedEvent` it assigns plus whether it set
`hasFinalizeEventOccurredRef.current = true`. -/
def classifyTraced (e : RawEvent) : Option Activity × Bool :=
  let eventType := eventTypeOf e
  if eventType = some "on_chain_end" ∨ eventType = some "on_chain_start" then
    if e.name = some "generate_query" ∧ e.data.isSome then
      match (outputOf e).bind NodeData.query_list with
      | some ql => (some ⟨"Generating Search Queries", jsJoin ql⟩, false)
      | none =>
        if eventType = some "on_chain_start" then
          (some ⟨"Generating Search Queries", "Creating search queries..."⟩, false)
        else (none, false)
    else if e.name = some "web_research" ∧ e.data.isSome then
      match outputOf e with
      | some o =>
        (some ⟨"Web Research", webResearchData (o.sources_gathered.getD [])⟩, false)
      | none =>
        if eventType = some "on_chain_start" then
          (some ⟨"Web Research", "Searching the web..."⟩, false)
        else (none, false)
    else if e.name = some "reflection" ∧ e.data.isSome then
      match outputOf e with
      | some o => (some ⟨"Reflection", reflectionData o⟩, false)
      | none =>
        if eventType = some "on_chain_start" then
          (some ⟨"Reflection", "Analyzing gathered information..."⟩, false)
        else (none, false)
    else if e.name = some "finalize_answer" then
      if eventType = some "on_chain_start" then
        (some ⟨"Finalizing Answer", "Composing and presenting the final answer."⟩, true)
      else (none, false)
    else (none, false)
  else (none, false)

/-- The flattened-form fallback of `onUpdateEvent` (App.tsx lines 110–146),
consulted only when the traced branch produced no `processedEvent`. -/
def classifyFlattened (e : RawEvent) : Option Activity × Bool :=
  match e.generate_query with
  | some g =>
    let joined := jsJoin (g.query_list.getD [])
    let dataStr := if joined = "" then "Creating queries..." else joined
    (some ⟨"Generating Search Queries", dataStr⟩, false)
  | none =>
    match e.web_research with
    | some w =>
      (some ⟨"Web Research", webResearchData (w.sources_gathered.getD [])⟩, false)
    | none =>
      match e.reflection with
      | some r => (some ⟨"Reflection", reflectionData r⟩, false)
      | none =>
        match e.finalize_answer with
        | some _ =>
          (some ⟨"Finalizing Answer", "Composing and presenting the final answer."⟩, true)
        | none => (none, false)

/-- The whole `onUpdateEvent` handler: traced branch first; the flattened
fallback runs only `if (!processedEvent)`. The second component is the value
of `hasFinalizeEventOccurredRef` being set by this call. -/
def onUpdateEvent (e : RawEvent) : Option Activity × Bool :=
  let t := classifyTraced e
  match t.1 with
  | some a => (some a, t.2)
  | none =>
    let f := classifyFlattened e
    (f.1, t.2 || f.2)

/-- The classifier's return value: the `processedEvent` appended (if any). -/
def classify (e : RawEvent) : Option Activity :=
  (onUpdateEvent e).1

/-- Whether processing `e` sets the terminal flag. -/
def setsTerminal (e : RawEvent) : Bool :=
  (onUpdateEvent e).2

/-- A transport message as the handler reads it: `type` (`"human"`/`"ai"`),
`content`, and an optional `id` (a JS-falsy id, absent or `""`, fails the
`lastMessage.id` truthiness check). -/
structure Message where
  type : String
  content : String
  id : Option String := none
deriving Repr, DecidableEq

/-- The `Record<string, ProcessedEvent[]>` history store, as an association
list. `recordSet` is `{...prev, [k]: v}`: the binding for `k` is replaced,
all other bindings are kept. -/
def recordSet (m : List (String × List Activity)) (k : String)
    (v : List Activity) : List (String × List Activity) :=
  (m.filter fun p => p.1 != k) ++ [(k, v)]

/-- Lookup in the history store. -/
def recordGet (m : List (String × List Activity)) (k : String) :
    Option (List Activity) :=
  (m.find? fun p => p.1 == k).map Prod.snd

/-- The React state the reconciliation core owns or observes:
`processedEventsTimeline` (Live Timeline), `historicalActivities`
(History Store), `hasFinalizeEventOccurredRef.current` (terminal flag), plus
the transport-owned `thread.messages` and `thread.isLoading`. -/
structure AppState where
  processedEventsTimeline : List Activity := []
  historicalActivities : List (String × List Activity) := []
  hasFinalizeEventOccurred : Bool := false
  messages : List Message := []
  isLoading : Bool := false
deriving Repr, DecidableEq

/-- Effect of one delivered event on the state: `onUpdateEvent` appends the
produced activity (if any) with `setProcessedEventsTimeline((prev) =>
[...prev, processedEvent!])` and may set the terminal flag. -/
def processEvent (s : AppState) (e : RawEvent) : AppState :=
  let r := onUpdateEvent e
  let timeline :=
    match r.1 with
    | some a => s.processedEventsTimeline ++ [a]
    | none => s.processedEventsTimeline
  { s with
    processedEventsTimeline := timeline
    hasFinalizeEventOccurred := s.hasFinalizeEventOccurred || r.2 }

/-- The archive `useEffect` body (App.tsx lines 169–185). When the terminal
flag is set, loading is off and the message list is non-empty, the last
message is examined: if it is an `"ai"` message with a truthy id, the Live
Timeline is copied into the history store under that id. The flag is then
cleared unconditionally (the assignment sits outside the inner `if`); the
Live Timeline itself is not touched here. -/
def archiveReconcile (s : AppState) : AppState :=
  if s.hasFinalizeEventOccurred = true ∧ s.isLoading = false ∧
      s.messages.length > 0 then
    let s1 :=
      match s.messages.getLast? with
      | some lastMessage =>
        match lastMessage.id with
        | some i =>
          if lastMessage.type = "ai" ∧ i ≠ "" then
            { s with historicalActivities :=
                recordSet s.historicalActivities i s.processedEventsTimeline }
          else s
        | none => s
      | none => s
    { s1 with hasFinalizeEventOccurred := false }
  else s

/-- The configuration record `handleSubmit` receives (`AgentConfiguration`). -/
structure AgentConfiguration where
  query_generator_model : String
  reflection_model : String
  answer_model : String
  number_of_initial_queries : Int
  max_research_loops : Int
  enable_thinking : Option Bool := none
deriving Repr, DecidableEq

/-- The `configurable` object passed to `thread.submit`; note
`enable_thinking: config.enable_thinking || false`. -/
structure Configurable where
  query_generator_model : String
  reflection_model : String
  answer_model : String
  number_of_initial_queries : Int
  max_research_loops : Int
  enable_thinking : Bool
deriving Repr, DecidableEq

/-- The payload handed to `thread.submit`. -/
structure SubmitPayload where
  messages : List Message
  configurable : Configurable
deriving Repr, DecidableEq

/-- The callback `handleSubmit` (App.tsx lines 187–222). `now` stands for `Date.now()`;
the new message id is its decimal string. Returns the updated state and the
payload dispatched to the transport (`none` when the guard returned early). -/
def handleSubmit (s : AppState) (submittedInputValue : String)
    (config : AgentConfiguration) (now : Nat) :
    AppState × Option SubmitPayload :=
  if jsTrim submittedInputValue = "" then (s, none)
  else
    let s1 := { s with
      processedEventsTimeline := []
      hasFinalizeEventOccurred := false }
    let newMessages := s.messages ++
      [{ type := "human", content := submittedInputValue,
         id := some (toString now) }]
    (s1, some
      { messages := newMessages
        configurable :=
          { query_generator_model := config.query_generator_model
            reflection_model := config.reflection_model
            answer_model := config.answer_model
            number_of_initial_queries := config.number_of_initial_queries
            max_research_loops := config.max_research_loops
            enable_thinking := config.enable_thinking.getD false } })

/-! ### Concrete fixtures used by witnesses and counterexamples -/

/-- Two sample timeline entries (the fixed start activities of two stages). -/
def actA : Activity := ⟨"Web Research", "Searching the web..."⟩

/-- Second sample timeline entry. -/
def actB : Activity := ⟨"Reflection", "Analyzing gathered information..."⟩

/-- A state satisfying the archive success conditions: terminal flag set,
not loading, last message an `"ai"` message with id `"m1"`. -/
def stOk : AppState :=
  { processedEventsTimeline := [actA, actB]
    historicalActivities := []
    hasFinalizeEventOccurred := true
    messages := [{ type := "human", content := "q", id := some "u1" },
                 { type := "ai", content := "ans", id := some "m1" }]
    isLoading := false }

/-- Same as `stOk` but the last (and only) message is a user message. -/
def stBad : AppState :=
  { processedEventsTimeline := [actA]
    historicalActivities := []
    hasFinalizeEventOccurred := true
    messages := [{ type := "human", content := "q", id := some "u1" }]
    isLoading := false }

/-- Output of the fixture `reflection` end event: `is_sufficient` false,
empty `follow_up_queries`. -/
def reflOutEx : NodeData :=
  { is_sufficient := false, follow_up_queries := some [] }

/-- Traced-form `reflection` end event carrying `reflOutEx`. -/
def reflEndEvent : RawEvent :=
  { event := some "on_chain_end", name := some "reflection"
    data := some { output := some reflOutEx } }

/-- The source list `[{label:"a"},{label:"a"},{label:"b"},{label:null}]`. -/
def srcsEx : List Source :=
  [{ label := some "a" }, { label := some "a" },
   { label := some "b" }, { label := none }]

/-- Output of the fixture `web_research` end event. -/
def webOutEx : NodeData := { sources_gathered := some srcsEx }

/-- Traced-form `web_research` end event carrying `webOutEx`. -/
def webEndEvent : RawEvent :=
  { event := some "on_chain_end", name := some "web_research"
    data := some { output := some webOutEx } }

/-- Traced-form `finalize_answer` start event. -/
def finStartEvent : RawEvent :=
  { event := some "on_chain_start", name := some "finalize_answer" }

/-- An event matching both shapes: traced `generate_query` start and a
flattened `web_research` key. -/
def bothShapesEvent : RawEvent :=
  { event := some "on_chain_start", name := some "generate_query"
    data := some {}
    web_research := some { sources_gathered := some [{ label := some "x" }] } }

/-- Flattened-form `generate_query` event with an empty `query_list`. -/
def flatGenEvent : RawEvent :=
  { generate_query := some { query_list := some [] } }

/-- A sample configuration. -/
def cfgEx : AgentConfiguration :=
  { query_generator_model := "gemini-2.0-flash"
    reflection_model := "gemini-2.5-flash-preview-04-17"
    answer_model := "gemini-2.5-flash-preview-04-17"
    number_of_initial_queries := 3
    max_research_loops := 2 }

/-! ### Helper lemmas -/

/-- Joining the empty list yields the empty string. -/
theorem jsJoin_nil : jsJoin [] = "" := rfl

/-- Lookup after a store write finds the value just written. -/
theorem recordGet_recordSet (m : List (String × List Activity)) (k : String)
    (v : List Activity) : recordGet (recordSet m k v) k = some v := by
  unfold recordGet recordSet
  have h1 : (m.filter fun p => p.1 != k).find? (fun p => p.1 == k) = none := by
    rw [List.find?_eq_none]
    intro x hx
    have hx1 := List.of_mem_filter hx
    simpa using hx1
  rw [List.find?_append, h1]
  simp

/-- If the traced branch matches no stage name, it yields nothing and does
not set the flag. -/
theorem classifyTraced_name_not_stage (e : RawEvent)
    (h1 : e.name ≠ some "generate_query") (h2 : e.name ≠ some "web_research")
    (h3 : e.name ≠ some "reflection") (h4 : e.name ≠ some "finalize_answer") :
    classifyTraced e = (none, false) := by
  simp only [classifyTraced]
  split_ifs <;> simp_all

/-- The traced branch never sets the flag without producing an activity. -/
theorem classifyTraced_none_flag (e : RawEvent)
    (h : (classifyTraced e).1 = none) : (classifyTraced e).2 = false := by
  cases hql : (outputOf e).bind NodeData.query_list <;>
    cases hout : outputOf e <;>
    simp only [classifyTraced, hql, hout] at h ⊢ <;>
    split_ifs at h ⊢ <;> simp_all

/-- When the traced branch sets the flag, its activity is the finalize one. -/
theorem classifyTraced_flag_finalize (e : RawEvent)
    (h : (classifyTraced e).2 = true) :
    (classifyTraced e).1 =
      some ⟨"Finalizing Answer", "Composing and presenting the final answer."⟩ := by
  cases hql : (outputOf e).bind NodeData.query_list <;>
    cases hout : outputOf e <;>
    simp only [classifyTraced, hql, hout] at h ⊢ <;>
    split_ifs at h ⊢ <;> simp_all

/-- When the flattened branch sets the flag, its activity is the finalize
one. -/
theorem classifyFlattened_flag_finalize (e : RawEvent)
    (h : (classifyFlattened e).2 = true) :
    (classifyFlattened e).1 =
      some ⟨"Finalizing Answer", "Composing and presenting the final answer."⟩ := by
  unfold classifyFlattened at h ⊢
  cases hg : e.generate_query <;> cases hw : e.web_research <;>
    cases hr : e.reflection <;> cases hf : e.finalize_answer <;> simp_all

/-- Behaviour of the archive effect when all success conditions hold; shared
by the claims about the reconciler. -/
theorem archiveReconcile_writes_aux (s : AppState) (m : Message) (i : String)
    (hflag : s.hasFinalizeEventOccurred = true) (hload : s.isLoading = false)
    (hlast : s.messages.getLast? = some m) (hai : m.type = "ai")
    (hid : m.id = some i) (hne : i ≠ "") :
    archiveReconcile s =
      { s with
        historicalActivities :=
          recordSet s.historicalActivities i s.processedEventsTimeline
        hasFinalizeEventOccurred := false } := by
  have hlen : s.messages.length > 0 := by
    cases hm : s.messages with
    | nil => rw [hm] at hlast; simp at hlast
    | cons a l => simp [hm]
  simp only [archiveReconcile]
  rw [if_pos ⟨hflag, hload, hlen⟩]
  simp only [hlast, hid]
  rw [if_pos ⟨hai, hne⟩]

/-! ### Claim theorems -/

/-- C1 (amended): for every state with terminal flag true, loading false, and
a non-empty message list whose last message is agent-authored with a known
(non-empty) id, reconciliation writes a copy of the Live Timeline into the
History Store under that message's id and clears the terminal flag; the Live
Timeline is left unchanged (the code never clears it here — it is cleared
only by the next submission). -/
theorem archiveReconcile_success (s : AppState) (m : Message) (i : String)
    (hflag : s.hasFinalizeEventOccurred = true) (hload : s.isLoading = false)
    (hlast : s.messages.getLast? = some m) (hai : m.type = "ai")
    (hid : m.id = some i) (hne : i ≠ "") :
    recordGet (archiveReconcile s).historicalActivities i =
        some s.processedEventsTimeline ∧
      (archiveReconcile s).hasFinalizeEventOccurred = false ∧
      (archiveReconcile s).processedEventsTimeline =
        s.processedEventsTimeline := by
  rw [archiveReconcile_writes_aux s m i hflag hload hlast hai hid hne]
  exact ⟨recordGet_recordSet _ _ _, rfl, rfl⟩

/-- Witness for `archiveReconcile_success` at the concrete state `stOk`. -/
theorem archiveReconcile_success_witness :
    recordGet (archiveReconcile stOk).historicalActivities "m1" =
        some [actA, actB] ∧
      (archiveReconcile stOk).hasFinalizeEventOccurred = false ∧
      (archiveReconcile stOk).processedEventsTimeline = [actA, actB] :=
  archiveReconcile_success stOk ⟨"ai", "ans", some "m1"⟩ "m1" rfl rfl
    (by decide) rfl rfl (by decide)

/-- C1 counterexample: at the concrete state `stOk` every other conjunct of
the claim holds, but the Live Timeline after reconciliation is not empty. -/
theorem archiveReconcile_clears_timeline_refuted :
    recordGet (archiveReconcile stOk).historicalActivities "m1" =
        some [actA, actB] ∧
      (archiveReconcile stOk).hasFinalizeEventOccurred = false ∧
      (archiveReconcile stOk).processedEventsTimeline ≠ [] := by decide

/-- C2 (amended): with terminal flag true, loading false, and a non-empty
message list whose last message is not agent-authored or has no (truthy) id,
reconciliation writes nothing to the History Store and leaves the Live
Timeline alone, but the terminal flag is cleared to false rather than
remaining true (the clearing assignment sits outside the inner guard). -/
theorem archiveReconcile_no_agent_last (s : AppState) (m : Message)
    (hflag : s.hasFinalizeEventOccurred = true) (hload : s.isLoading = false)
    (hlast : s.messages.getLast? = some m)
    (hnot : m.type ≠ "ai" ∨ m.id = none ∨ m.id = some "") :
    (archiveReconcile s).historicalActivities = s.historicalActivities ∧
      (archiveReconcile s).hasFinalizeEventOccurred = false ∧
      (archiveReconcile s).processedEventsTimeline =
        s.processedEventsTimeline := by
  have hlen : s.messages.length > 0 := by
    cases hm : s.messages with
    | nil => rw [hm] at hlast; simp at hlast
    | cons a l => simp [hm]
  simp only [archiveReconcile]
  rw [if_pos ⟨hflag, hload, hlen⟩]
  simp only [hlast]
  rcases hnot with h | h | h
  · cases hid2 : m.id <;> simp [hid2, h]
  · simp [h]
  · simp [h]

/-- Witness for `archiveReconcile_no_agent_last` at the concrete state
`stBad` (last message is a user message). -/
theorem archiveReconcile_no_agent_last_witness :
    (archiveReconcile stBad).historicalActivities = [] ∧
      (archiveReconcile stBad).hasFinalizeEventOccurred = false ∧
      (archiveReconcile stBad).processedEventsTimeline = [actA] :=
  archiveReconcile_no_agent_last stBad ⟨"human", "q", some "u1"⟩ rfl rfl
    (by decide) (Or.inl (by decide))

/-- C2 counterexample: at `stBad` nothing is written, but the terminal flag
does not remain true — it is cleared to false. -/
theorem archiveReconcile_flag_remains_refuted :
    (archiveReconcile stBad).historicalActivities = [] ∧
      (archiveReconcile stBad).hasFinalizeEventOccurred = false := by decide

/-- C9: appending to the Live Timeline is unconditional (repeated identical
activities each append — no deduplication) and preserves arrival order; and
whenever a run is archived, the sequence stored in the History Store is
exactly the Live Timeline's sequence, in append order. -/
theorem timeline_append_archive_order :
    (∀ (s : AppState) (e : RawEvent) (a : Activity), classify e = some a →
      (processEvent s e).processedEventsTimeline =
        s.processedEventsTimeline ++ [a]) ∧
    (∀ (s : AppState) (m : Message) (i : String),
      s.hasFinalizeEventOccurred = true → s.isLoading = false →
      s.messages.getLast? = some m → m.type = "ai" → m.id = some i →
      i ≠ "" →
      recordGet (archiveReconcile s).historicalActivities i =
        some s.processedEventsTimeline) := by
  constructor
  · intro s e a h
    simp only [classify] at h
    simp [processEvent, h]
  · intro s m i hflag hload hlast hai hid hne
    rw [archiveReconcile_writes_aux s m i hflag hload hlast hai hid hne]
    exact recordGet_recordSet _ _ _

/-- Witness for `timeline_append_archive_order`: a concrete append onto a
non-empty timeline and a concrete archive. -/
theorem timeline_append_archive_order_witness :
    (processEvent stBad finStartEvent).processedEventsTimeline =
        [actA, ⟨"Finalizing Answer",
          "Composing and presenting the final answer."⟩] ∧
      recordGet (archiveReconcile stOk).historicalActivities "m1" =
        some [actA, actB] := by
  constructor
  · exact timeline_append_archive_order.1 stBad finStartEvent
      ⟨"Finalizing Answer", "Composing and presenting the final answer."⟩
      (by decide)
  · exact timeline_append_archive_order.2 stOk ⟨"ai", "ans", some "m1"⟩ "m1"
      rfl rfl (by decide) rfl rfl (by decide)

/-- An event recognizable by neither shape: unknown stage name, no
flattened stage key. -/
def unknownEvent : RawEvent :=
  { event := some "on_chain_start", name := some "mystery_stage" }

/-- C5: an event matching no recognized stage name and neither recognized
shape yields no Activity, sets no flag, and leaves the state unchanged
(nothing is appended to the Live Timeline); classification is a total
function, so no exception is possible in the embedding. -/
theorem unrecognized_event_dropped (e : RawEvent) (s : AppState)
    (h1 : e.name ≠ some "generate_query") (h2 : e.name ≠ some "web_research")
    (h3 : e.name ≠ some "reflection") (h4 : e.name ≠ some "finalize_answer")
    (hg : e.generate_query = none) (hw : e.web_research = none)
    (hr : e.reflection = none) (hf : e.finalize_answer = none) :
    classify e = none ∧ setsTerminal e = false ∧ processEvent s e = s := by
  have ht := classifyTraced_name_not_stage e h1 h2 h3 h4
  have hfl : classifyFlattened e = (none, false) := by
    simp only [classifyFlattened, hg, hw, hr, hf]
  have hou : onUpdateEvent e = (none, false) := by
    simp [onUpdateEvent, ht, hfl]
  refine ⟨by simp [classify, hou], by simp [setsTerminal, hou], ?_⟩
  simp [processEvent, hou]

/-- Witness for `unrecognized_event_dropped` at the concrete `unknownEvent`. -/
theorem unrecognized_event_dropped_witness :
    classify unknownEvent = none ∧ setsTerminal unknownEvent = false ∧
      processEvent stBad unknownEvent = stBad :=
  unrecognized_event_dropped unknownEvent stBad (by decide) (by decide)
    (by decide) (by decide) rfl rfl rfl rfl

/-- C6: a traced `finalize_answer` start event sets the terminal flag, and
recognizing an event as any other stage — in either shape, witnessed by the
returned Activity's title not being the finalize title — never sets it. -/
theorem finalize_start_sets_terminal :
    (∀ e : RawEvent, eventTypeOf e = some "on_chain_start" →
      e.name = some "finalize_answer" → setsTerminal e = true) ∧
    (∀ (e : RawEvent) (a : Activity), classify e = some a →
      a.title ≠ "Finalizing Answer" → setsTerminal e = false) := by
  constructor
  · intro e het hn
    have ht : classifyTraced e =
        (some ⟨"Finalizing Answer",
          "Composing and presenting the final answer."⟩, true) := by
      simp [classifyTraced, het, hn]
    simp [setsTerminal, onUpdateEvent, ht]
  · intro e a hc hti
    cases hset : setsTerminal e with
    | false => rfl
    | true =>
      exfalso
      apply hti
      simp only [classify, onUpdateEvent] at hc
      simp only [setsTerminal, onUpdateEvent] at hset
      cases ht1 : (classifyTraced e).1 with
      | some b =>
        rw [ht1] at hc hset
        simp at hc hset
        have hfin := classifyTraced_flag_finalize e hset
        rw [ht1] at hfin
        simp at hfin
        rw [← hc, hfin]
      | none =>
        have ht2 := classifyTraced_none_flag e ht1
        rw [ht1] at hc hset
        simp [ht2] at hc hset
        have hfin := classifyFlattened_flag_finalize e hset
        rw [hfin] at hc
        simp at hc
        rw [← hc]

/-- Witness for `finalize_start_sets_terminal`: the flag is set by the
concrete finalize start event and not by a concrete reflection end event. -/
theorem finalize_start_sets_terminal_witness :
    setsTerminal finStartEvent = true ∧ setsTerminal reflEndEvent = false := by
  constructor
  · exact finalize_start_sets_terminal.1 finStartEvent rfl rfl
  · exact finalize_start_sets_terminal.2 reflEndEvent
      ⟨"Reflection", "Need more information, searching for additional info"⟩
      (by decide) (by decide)

/-- C7: the flattened fallback is consulted only when the traced branch
yields no Activity; when the traced branch matches, its result (activity and
flag) is the handler's result. -/
theorem traced_precedence (e : RawEvent) :
    (∀ a : Activity, (classifyTraced e).1 = some a →
      onUpdateEvent e = (some a, (classifyTraced e).2)) ∧
    ((classifyTraced e).1 = none →
      onUpdateEvent e = ((classifyFlattened e).1, (classifyFlattened e).2)) := by
  constructor
  · intro a h
    simp [onUpdateEvent, h]
  · intro h
    have h2 := classifyTraced_none_flag e h
    simp [onUpdateEvent, h, h2]

/-- Witness for `traced_precedence`: `bothShapesEvent` matches both shapes
(traced `generate_query` start, flattened `web_research`), and the handler
returns the traced result. -/
theorem traced_precedence_witness :
    onUpdateEvent bothShapesEvent =
      (some ⟨"Generating Search Queries", "Creating search queries..."⟩,
        false) :=
  (traced_precedence bothShapesEvent).1
    ⟨"Generating Search Queries", "Creating search queries..."⟩ (by decide)

/-- C3 (amended): on a reflection end event with sufficiency false and an
empty or absent follow-up list — in either shape — `classify` returns an
Activity whose data is exactly
`"Need more information, searching for additional info"`: it ends in
`"for additional info"` with no terminating period (the code's template has
no trailing period). -/
theorem reflection_insufficient_no_queries :
    (∀ (e : RawEvent) (d : EventData) (o : NodeData),
      eventTypeOf e = some "on_chain_end" → e.name = some "reflection" →
      e.data = some d → d.output = some o → o.is_sufficient = false →
      (o.follow_up_queries = none ∨ o.follow_up_queries = some []) →
      classify e = some ⟨"Reflection",
        "Need more information, searching for additional info"⟩) ∧
    (∀ (e : RawEvent) (r : NodeData),
      e.name = none → e.generate_query = none → e.web_research = none →
      e.reflection = some r → r.is_sufficient = false →
      (r.follow_up_queries = none ∨ r.follow_up_queries = some []) →
      classify e = some ⟨"Reflection",
        "Need more information, searching for additional info"⟩) ∧
    strEndsWith "Need more information, searching for additional info"
      "for additional info" = true := by
  have hrd : ∀ nd : NodeData, nd.is_sufficient = false →
      (nd.follow_up_queries = none ∨ nd.follow_up_queries = some []) →
      reflectionData nd =
        "Need more information, searching for additional info" := by
    intro nd hs hq
    rcases hq with hq | hq <;> simp [reflectionData, hs, hq, jsJoin_nil]
  refine ⟨?_, ?_, by decide⟩
  · intro e d o het hn hd ho hs hq
    have hout : outputOf e = some o := by simp [outputOf, hd, ho]
    have ht : classifyTraced e =
        (some ⟨"Reflection", reflectionData o⟩, false) := by
      simp [classifyTraced, het, hn, hd, hout]
    simp [classify, onUpdateEvent, ht, hrd o hs hq]
  · intro e r hn hg hw hr hs hq
    have ht := classifyTraced_name_not_stage e (by simp [hn]) (by simp [hn])
      (by simp [hn]) (by simp [hn])
    simp [classify, onUpdateEvent, ht, classifyFlattened, hg, hw, hr,
      hrd r hs hq]

/-- Witness for `reflection_insufficient_no_queries` at the concrete
`reflEndEvent` and its flattened counterpart. -/
theorem reflection_insufficient_no_queries_witness :
    classify reflEndEvent = some ⟨"Reflection",
        "Need more information, searching for additional info"⟩ ∧
      classify { reflection := some reflOutEx } = some ⟨"Reflection",
        "Need more information, searching for additional info"⟩ :=
  ⟨reflection_insufficient_no_queries.1 reflEndEvent
      { output := some reflOutEx } reflOutEx rfl rfl rfl rfl rfl
      (Or.inr rfl),
    reflection_insufficient_no_queries.2.1 { reflection := some reflOutEx }
      reflOutEx rfl rfl rfl rfl rfl (Or.inr rfl)⟩

/-- C3 counterexample: the produced data does not end in
`"additional info."` — there is no terminating period. -/
theorem reflection_trailing_period_refuted :
    classify reflEndEvent = some ⟨"Reflection",
        "Need more information, searching for additional info"⟩ ∧
      strEndsWith "Need more information, searching for additional info"
        "additional info." = false := by decide

/-- C4: on a `web_research` end event carrying a gathered-sources list — in
either shape: a traced end event, or a flattened event whose `web_research`
key holds the data (the fallback's end case) — `classify` reports the total
record count (duplicates and label-less records included) and up to three
distinct non-empty labels, `"N/A"` when there are none; at the claim's
example sources the data is `"Gathered 4 sources. Related to: a, b."`. -/
theorem web_research_end_summary :
    (∀ (e : RawEvent) (d : EventData) (o : NodeData) (srcs : List Source),
      eventTypeOf e = some "on_chain_end" → e.name = some "web_research" →
      e.data = some d → d.output = some o → o.sources_gathered = some srcs →
      classify e = some ⟨"Web Research",
        "Gathered " ++ toString srcs.length ++ " sources. Related to: " ++
          (if exampleLabels srcs = "" then "N/A" else exampleLabels srcs) ++
          "."⟩) ∧
    (∀ (e : RawEvent) (w : NodeData) (srcs : List Source),
      e.name = none → e.generate_query = none → e.web_research = some w →
      w.sources_gathered = some srcs →
      classify e = some ⟨"Web Research",
        "Gathered " ++ toString srcs.length ++ " sources. Related to: " ++
          (if exampleLabels srcs = "" then "N/A" else exampleLabels srcs) ++
          "."⟩) ∧
    classify webEndEvent =
      some ⟨"Web Research", "Gathered 4 sources. Related to: a, b."⟩ := by
  refine ⟨?_, ?_, by decide⟩
  · intro e d o srcs het hn hd ho hs
    have hout : outputOf e = some o := by simp [outputOf, hd, ho]
    have ht : classifyTraced e =
        (some ⟨"Web Research",
          webResearchData (o.sources_gathered.getD [])⟩, false) := by
      simp [classifyTraced, het, hn, hd, hout]
    simp [classify, onUpdateEvent, ht, hs, webResearchData]
  · intro e w srcs hn hg hw hs
    have ht := classifyTraced_name_not_stage e (by simp [hn]) (by simp [hn])
      (by simp [hn]) (by simp [hn])
    simp [classify, onUpdateEvent, ht, classifyFlattened, hg, hw, hs,
      webResearchData]

/-- Witness for `web_research_end_summary` at the concrete `webEndEvent`
and at its flattened counterpart. -/
theorem web_research_end_summary_witness :
    classify webEndEvent = some ⟨"Web Research",
        "Gathered " ++ toString srcsEx.length ++ " sources. Related to: " ++
          (if exampleLabels srcsEx = "" then "N/A" else exampleLabels srcsEx)
          ++ "."⟩ ∧
      classify { web_research := some webOutEx } = some ⟨"Web Research",
        "Gathered " ++ toString srcsEx.length ++ " sources. Related to: " ++
          (if exampleLabels srcsEx = "" then "N/A" else exampleLabels srcsEx)
          ++ "."⟩ :=
  ⟨web_research_end_summary.1 webEndEvent { output := some webOutEx } webOutEx
      srcsEx rfl rfl rfl rfl rfl,
    web_research_end_summary.2.1 { web_research := some webOutEx } webOutEx
      srcsEx rfl rfl rfl rfl⟩

/-- C8: when the input is non-empty after trimming, `handleSubmit` clears
the Live Timeline and the terminal flag whatever their prior values, and
dispatches the prior messages extended by one `"human"` message whose id is
the decimal of the current timestamp, together with the mapped
configuration; when the trimmed input is empty it does nothing. -/
theorem handleSubmit_spec :
    (∀ (s : AppState) (text : String) (cfg : AgentConfiguration) (now : Nat),
      jsTrim text ≠ "" →
      handleSubmit s text cfg now =
        ({ s with
            processedEventsTimeline := []
            hasFinalizeEventOccurred := false },
          some ⟨s.messages ++ [⟨"human", text, some (toString now)⟩],
            ⟨cfg.query_generator_model, cfg.reflection_model,
              cfg.answer_model, cfg.number_of_initial_queries,
              cfg.max_research_loops, cfg.enable_thinking.getD false⟩⟩)) ∧
    (∀ (s : AppState) (text : String) (cfg : AgentConfiguration) (now : Nat),
      jsTrim text = "" → handleSubmit s text cfg now = (s, none)) := by
  constructor
  · intro s text cfg now h
    simp [handleSubmit, h]
  · intro s text cfg now h
    simp [handleSubmit, h]

/-- Witness for `handleSubmit_spec`: a concrete submission from `stOk`
(whose timeline and flag are non-trivial) and a concrete whitespace-only
no-op. -/
theorem handleSubmit_spec_witness :
    handleSubmit stOk "  hello " cfgEx 42 =
        ({ stOk with
            processedEventsTimeline := []
            hasFinalizeEventOccurred := false },
          some ⟨stOk.messages ++ [⟨"human", "  hello ", some (toString 42)⟩],
            ⟨cfgEx.query_generator_model, cfgEx.reflection_model,
              cfgEx.answer_model, cfgEx.number_of_initial_queries,
              cfgEx.max_research_loops, cfgEx.enable_thinking.getD false⟩⟩) ∧
      handleSubmit stOk "   " cfgEx 42 = (stOk, none) :=
  ⟨handleSubmit_spec.1 stOk "  hello " cfgEx 42 (by decide),
    handleSubmit_spec.2 stOk "   " cfgEx 42 (by decide)⟩

/-- C10: a flattened-form event whose `generate_query` entry has an empty or
absent `query_list` classifies to the placeholder
`"Creating queries..."`, which differs from the traced-form start text
`"Creating search queries..."`. -/
theorem flattened_generate_query_placeholder (e : RawEvent) (g : NodeData)
    (hn : e.name = none) (hg : e.generate_query = some g)
    (hql : g.query_list = none ∨ g.query_list = some []) :
    classify e =
        some ⟨"Generating Search Queries", "Creating queries..."⟩ ∧
      "Creating queries..." ≠ "Creating search queries..." := by
  have ht := classifyTraced_name_not_stage e (by simp [hn]) (by simp [hn])
    (by simp [hn]) (by simp [hn])
  refine ⟨?_, by decide⟩
  have hfl : classifyFlattened e =
      (some ⟨"Generating Search Queries", "Creating queries..."⟩, false) := by
    rcases hql with hq | hq <;> simp [classifyFlattened, hg, hq, jsJoin_nil]
  simp [classify, onUpdateEvent, ht, hfl]

/-- Witness for `flattened_generate_query_placeholder` at the concrete
`flatGenEvent`. -/
theorem flattened_generate_query_placeholder_witness :
    classify flatGenEvent =
        some ⟨"Generating Search Queries", "Creating queries..."⟩ ∧
      "Creating queries..." ≠ "Creating search queries..." :=
  flattened_generate_query_placeholder flatGenEvent
    { query_list := some [] } rfl rfl (Or.inr rfl)

end RioSpa
